import Mathlib

/-!
Verification development for the planar-subdivision kernel of the
geoalg-notebooks repository: the doubly-connected edge list
(notebooks/modules/data_structures/objects.py, dcel.py) and the trapezoidal
decomposition with point location
(notebooks/modules/data_structures/vertical_decomposition.py).

Modelling conventions, fixed once here:

* Coordinates.  Python floats are modelled by exact rationals (`Frac`,
  a gcd-normalized pair of integers).  Every concrete coordinate appearing in
  the scenarios below (small integers and the literal `1e-9` / `1e-10`) is
  exactly representable as a double, and every arithmetic operation the code
  performs on them in those scenarios is exact, so the rational model agrees
  with the float execution on the inputs used.  `EPSILON = 1e-9` from
  geometry/core.py.

* Object identity.  Python compares `Vertex`, `HalfEdge`, `Face`, trapezoid
  and DAG-node objects by identity (`is`, default `==`); the embedding keeps
  each kind of record in an arena (a list) and represents references as arena
  indices, so identity becomes index equality.  `Point.__eq__` is coordinate
  equality, which is structural equality of the normalized `Frac` pairs.
  The identity of the `Point` objects handed to `add_vertex` (tested there
  with `is`) is modelled by an explicit token `pid` supplied by the caller;
  distinct call-site objects carry distinct tokens.

* Mutation.  Python mutates objects in place; the embedding threads the whole
  state through every operation.  A raised exception leaves all mutations
  performed so far in place, so mutating operations return the state
  together with `Option String` (the raised error, if any); read-only
  helpers return `Except String`.

* `e.twin = t` / `e.next = n` / `e.prev = p` assignments in dcel.py address
  getter-only properties of objects.py (`HalfEdge.twin`, `.prev`, `.next`
  declare no setter; of the pointer properties only `incident_face` and
  `Face.outer_component` have one), so the first such statement raises
  AttributeError at run time: in `_add_edge` at dcel.py line 154
  (`half_edge_0.twin = half_edge_1`), in `add_vertex_in_edge` at line 216
  (`new_vertex.edge.twin = edge.twin`).  The embedding performs every
  mutation the source performs before that statement (half-edge appends,
  the inner-component append of the both-isolated branch, the
  `incident_face` setter calls) and returns the AttributeError there; the
  source text after the raising line is unreachable and the standalone
  helpers it names (`_split_face`, `_fix_inner_components`), which contain
  no such assignment, are embedded as separate definitions.
  `PointLocation.__init__` likewise never completes: it always reaches
  `clear_vertical_decomposition`, whose `DoublyConnectedEdgeList()` call
  with no arguments (vertical_decomposition.py line 86) raises TypeError,
  so `mkPointLocation` returns that error; the vertical-decomposition
  machinery itself (`VerticalDecomposition.update`, the search structure,
  `insert`, `search`) is exercised directly on `VDState` scenarios.

* The animation-event recording (`PointSequence`, `_point_sequence`,
  `animate`, tag fields) is display-only state declared out of scope by the
  design document; it is omitted from the embedding.  The `length <= eps`
  test of the well-formedness checker is embedded as
  `length_sq <= eps * eps`, which is exactly equivalent for `eps >= 0`
  (sqrt is monotone), avoiding irrational intermediate values.

* Loops over cyclic pointer structures (`cycle`, `outgoing_edges`, the
  angular-slot searches, DAG descent) terminate in Python only on
  well-shaped data; they are embedded with an explicit fuel bound of
  arena size + 1 and report an error when the fuel runs out (where Python
  would not terminate).
-/

set_option maxRecDepth 20000
set_option maxHeartbeats 4000000

namespace GeoNotebooks

/-! ## Exact rational coordinates -/

/-- A rational number kept in normalized form: positive denominator, and
numerator and denominator coprime.  All constructors below normalize, so
structural equality coincides with value equality (matching exact float
`==` on the scenario inputs). -/
structure Frac where
  num : ℤ
  den : ℤ
deriving DecidableEq, Repr

/-- Normalize a fraction; `d = 0` never occurs on the guarded call sites
(the code checks for vertical / degenerate configurations first). -/
def Frac.mk' (n d : ℤ) : Frac :=
  let n' := if d < 0 then -n else n
  let d' := if d < 0 then -d else d
  let g : ℤ := Int.ofNat (Int.gcd n' d')
  if g = 0 then ⟨0, 1⟩ else ⟨n' / g, d' / g⟩

def Frac.ofInt (n : ℤ) : Frac := ⟨n, 1⟩

def Frac.add (a b : Frac) : Frac := Frac.mk' (a.num * b.den + b.num * a.den) (a.den * b.den)

def Frac.sub (a b : Frac) : Frac := Frac.mk' (a.num * b.den - b.num * a.den) (a.den * b.den)

def Frac.mul (a b : Frac) : Frac := Frac.mk' (a.num * b.num) (a.den * b.den)

def Frac.div (a b : Frac) : Frac := Frac.mk' (a.num * b.den) (a.den * b.num)

def Frac.neg (a : Frac) : Frac := ⟨-a.num, a.den⟩

/-- `a < b` (denominators are positive by construction). -/
def Frac.blt (a b : Frac) : Bool := a.num * b.den < b.num * a.den

/-- `a <= b`. -/
def Frac.ble (a b : Frac) : Bool := a.num * b.den ≤ b.num * a.den

def Frac.babs (a : Frac) : Frac := if a.num < 0 then a.neg else a

/-- `EPSILON = 1e-9` from geometry/core.py. -/
def EPSILON : Frac := ⟨1, 1000000000⟩

/-! ## geometry/core.py: orientations and points -/

/-- `Orientation` enum. -/
inductive Orient
  | LEFT
  | RIGHT
  | BETWEEN
  | BEFORE_SOURCE
  | BEHIND_TARGET
deriving DecidableEq, Repr

/-- `VerticalOrientation` enum. -/
inductive VertOrient
  | ON
  | ABOVE
  | BELOW
deriving DecidableEq, Repr

/-- `HorizontalOrientation` enum. -/
inductive HorizOrient
  | LEFT
  | RIGHT
  | EQUAL
deriving DecidableEq, Repr

/-- `Point`: immutable coordinates; `__eq__` compares coordinates exactly
(the drawing `tag` field is omitted). -/
structure Point where
  x : Frac
  y : Frac
deriving DecidableEq, Repr

def Point.subP (a b : Point) : Point := ⟨a.x.sub b.x, a.y.sub b.y⟩

def Point.dot (a b : Point) : Frac := (a.x.mul b.x).add (a.y.mul b.y)

def Point.perp_dot (a b : Point) : Frac := (a.x.mul b.y).sub (a.y.mul b.x)

/-- `Point.orientation(source, target)`: raises ValueError when
`source == target`. -/
def Point.orientation (self source target : Point) : Except String Orient :=
  if source = target then .error "source and target equal" else
  let sd := self.subP source
  let td := target.subP source
  let sa := sd.perp_dot td
  if sa.blt EPSILON.neg then .ok .LEFT
  else if EPSILON.blt sa then .ok .RIGHT
  else
    let a := (sd.dot td).div (td.dot td)
    if a.blt (Frac.ofInt 0) then .ok .BEFORE_SOURCE
    else if (Frac.ofInt 1).blt a then .ok .BEHIND_TARGET
    else .ok .BETWEEN

/-- `Point.horizontal_orientation(other)`: lexicographic order with exact
equality test first. -/
def Point.horizontal_orientation (self other : Point) : HorizOrient :=
  if self = other then .EQUAL
  else if self.x.blt other.x || (self.x = other.x && self.y.blt other.y) then .LEFT
  else .RIGHT

/-! ## geometry/core.py: line segments -/

/-- `LineSegment`: stored as the `upper`/`lower` endpoint pair chosen by the
constructor. -/
structure LineSeg where
  upper : Point
  lower : Point
deriving DecidableEq, Repr

/-- `LineSegment.__init__`: raises ValueError iff the endpoints are equal. -/
def mkLineSeg (p q : Point) : Except String LineSeg :=
  if p = q then .error "a line segment needs two different endpoints"
  else if q.y.blt p.y || (p.y = q.y && p.x.blt q.x) then .ok ⟨p, q⟩
  else .ok ⟨q, p⟩

def LineSeg.left (s : LineSeg) : Point :=
  if s.upper.x.blt s.lower.x || (s.upper.x = s.lower.x && s.upper.y.blt s.lower.y)
  then s.upper else s.lower

def LineSeg.right (s : LineSeg) : Point :=
  if s.lower.x.blt s.upper.x || (s.upper.x = s.lower.x && s.lower.y.blt s.upper.y)
  then s.upper else s.lower

/-- `LineSegment.y_from_x`; the source raises on a vertical segment, and
every call site here is behind the vertical check of
`vertical_orientation`, where the division below is well defined. -/
def LineSeg.y_from_x (s : LineSeg) (x : Frac) : Frac :=
  (((x.sub s.upper.x).div (s.lower.x.sub s.upper.x)).mul (s.lower.y.sub s.upper.y)).add s.upper.y

/-- `LineSegment.slope()`: `none` models `float("inf")` for a vertical
segment. -/
def LineSeg.slope (s : LineSeg) : Option Frac :=
  if s.left.x.sub s.right.x = Frac.ofInt 0 then none
  else some ((s.left.y.sub s.right.y).div (s.left.x.sub s.right.x))

/-- Comparison `a > b` on slopes where `none` is `float("inf")`
(`inf > inf` is false). -/
def slopeGt (a b : Option Frac) : Bool :=
  match a, b with
  | none, none => false
  | none, some _ => true
  | some _, none => false
  | some x, some y => y.blt x

/-- Comparison `a < b` on slopes where `none` is `float("inf")`. -/
def slopeLt (a b : Option Frac) : Bool :=
  match a, b with
  | none, _ => false
  | some _, none => true
  | some x, some y => x.blt y

/-- `Point.vertical_orientation(line_segment)`. -/
def Point.vertical_orientation (self : Point) (ls : LineSeg) : VertOrient :=
  if ls.left.x = ls.right.x then
    if self.x.blt ls.left.x then .ABOVE
    else if ls.left.x.blt self.x then .BELOW
    else .ON
  else
    let y := ls.y_from_x self.x
    if (y.sub self.y).blt EPSILON.neg then .ABOVE
    else if EPSILON.blt (y.sub self.y) then .BELOW
    else .ON

/-- Result of `LineSegment.intersection`. -/
inductive SegInter
  | ipoint (p : Point)
  | iseg (s : LineSeg)
  | inone
deriving DecidableEq, Repr

def Point.scale (a : Frac) (p : Point) : Point := ⟨a.mul p.x, a.mul p.y⟩

def Point.addP (a b : Point) : Point := ⟨a.x.add b.x, a.y.add b.y⟩

/-- `LineSegment.intersection(other)` with the default epsilon. -/
def LineSeg.inter (s other : LineSeg) : SegInter :=
  let sd := s.upper.subP s.lower
  let od := other.upper.subP other.lower
  let lo := other.lower.subP s.lower
  let sa_sd_od := sd.perp_dot od
  let sa_lo_od := lo.perp_dot od
  let sa_lo_sd := lo.perp_dot sd
  if EPSILON.blt sa_sd_od.babs then
    let a := sa_lo_od.div sa_sd_od
    let b := sa_lo_sd.div sa_sd_od
    if EPSILON.neg.ble a && a.ble ((Frac.ofInt 1).add EPSILON) &&
       EPSILON.neg.ble b && b.ble ((Frac.ofInt 1).add EPSILON) then
      .ipoint (s.lower.addP (Point.scale a sd))
    else .inone
  else if sa_lo_od.babs.ble EPSILON || sa_lo_sd.babs.ble EPSILON then
    let sdd := sd.dot sd
    let uo := other.upper.subP s.lower
    let a_lower := (lo.dot sd).div sdd
    let a_upper := (uo.dot sd).div sdd
    let a_lower_c := if a_lower.ble a_upper then a_lower else a_upper
    let a_upper_c := if a_lower.ble a_upper then a_upper else a_lower
    let alc := if a_lower_c.blt (Frac.ofInt 0) then Frac.ofInt 0 else a_lower_c
    let auc := if (Frac.ofInt 1).blt a_upper_c then Frac.ofInt 1 else a_upper_c
    let upper := s.lower.addP (Point.scale auc sd)
    if alc = auc then .ipoint upper
    else if alc.blt auc then
      let lower := s.lower.addP (Point.scale alc sd)
      -- `LineSegment(upper, lower)` cannot raise here: `alc < auc` and the
      -- direction vector of a constructed segment is nonzero.
      match mkLineSeg upper lower with
      | .ok sres => .iseg sres
      | .error _ => .inone
    else .inone
  else .inone

end GeoNotebooks

namespace GeoNotebooks

/-! ## DCEL records (objects.py) -/

/-- `Vertex`: the point (with its identity token `pid`) and the index of the
representative half-edge allocated by `Vertex.__init__`. -/
structure Vertex where
  point : Point
  pid : ℕ
  edge : ℕ
deriving DecidableEq, Repr

/-- `HalfEdge`: origin vertex index, twin/prev/next edge indices (fresh
half-edges reference themselves), incident face index (`None` initially). -/
structure HalfEdge where
  origin : ℕ
  twin : ℕ
  prev : ℕ
  next : ℕ
  face : Option ℕ
deriving DecidableEq, Repr

/-- `Face`: outer-component edge index (`None` for the outer face), the
`_is_outer` flag, inner-component representative edge indices. -/
structure DFace where
  outer : Option ℕ
  isOuter : Bool
  inner : List ℕ
deriving DecidableEq, Repr

/-- `DoublyConnectedEdgeList` state: the arenas `_vertices`, `_edges`,
`_faces` (allocation appends, so arena order equals Python list order).
The outer face is always index 0 (created by `clear`).  The bookkeeping
fields `_start_vertex` / `_last_added_vertex` are write-only in the
modelled behavior and omitted. -/
structure DCEL where
  vertices : List Vertex
  edges : List HalfEdge
  faces : List DFace
deriving DecidableEq, Repr

def dfltVertex : Vertex := ⟨⟨⟨0, 1⟩, ⟨0, 1⟩⟩, 0, 0⟩

def dfltEdge : HalfEdge := ⟨0, 0, 0, 0, none⟩

def dfltFace : DFace := ⟨none, false, []⟩

def DCEL.vAt (d : DCEL) (i : ℕ) : Vertex := d.vertices.getD i dfltVertex

def DCEL.eAt (d : DCEL) (i : ℕ) : HalfEdge := d.edges.getD i dfltEdge

def DCEL.fAt (d : DCEL) (i : ℕ) : DFace := d.faces.getD i dfltFace

def listSet {α : Type} : List α → ℕ → α → List α
  | [], _, _ => []
  | _ :: xs, 0, v => v :: xs
  | x :: xs, n + 1, v => x :: listSet xs n v

def DCEL.setE (d : DCEL) (i : ℕ) (e : HalfEdge) : DCEL :=
  { d with edges := listSet d.edges i e }

def DCEL.modE (d : DCEL) (i : ℕ) (f : HalfEdge → HalfEdge) : DCEL :=
  d.setE i (f (d.eAt i))

def DCEL.setF (d : DCEL) (i : ℕ) (f : DFace) : DCEL :=
  { d with faces := listSet d.faces i f }

def DCEL.modF (d : DCEL) (i : ℕ) (g : DFace → DFace) : DCEL :=
  d.setF i (g (d.fAt i))

/-- `HalfEdge.destination = self._twin._origin`. -/
def DCEL.dest (d : DCEL) (e : ℕ) : ℕ := (d.eAt (d.eAt e).twin).origin

def DCEL.pointOf (d : DCEL) (v : ℕ) : Point := (d.vAt v).point

def DCEL.originPt (d : DCEL) (e : ℕ) : Point := d.pointOf (d.eAt e).origin

def DCEL.destPt (d : DCEL) (e : ℕ) : Point := d.pointOf (d.dest e)

/-- `HalfEdge.left_and_right`. -/
def DCEL.left_and_right (d : DCEL) (e : ℕ) : ℕ × ℕ :=
  let p := (d.eAt e).origin
  let q := d.dest e
  let pp := d.pointOf p
  let qp := d.pointOf q
  if pp.x.blt qp.x || (pp.x = qp.x && pp.y.blt qp.y) then (p, q) else (q, p)

/-- Squared edge length (`HalfEdge.length` squared; see header note). -/
def DCEL.lengthSq (d : DCEL) (e : ℕ) : Frac :=
  let v := (d.originPt e).subP (d.destPt e)
  v.dot v

/-- `HalfEdge.cycle()`: follow `next` until back at the start. -/
def cycleAux (d : DCEL) (start : ℕ) : ℕ → ℕ → List ℕ → Except String (List ℕ)
  | 0, _, _ => .error "cycle loop exceeded arena size"
  | fuel + 1, cur, acc =>
    let nxt := (d.eAt cur).next
    if nxt = start then .ok acc.reverse
    else cycleAux d start fuel nxt (nxt :: acc)

def DCEL.cycle (d : DCEL) (e : ℕ) : Except String (List ℕ) :=
  cycleAux d e (d.edges.length + 1) e [e]

/-- `HalfEdge.vertex_on_cycle(vertex)`. -/
def DCEL.vertex_on_cycle (d : DCEL) (e v : ℕ) : Except String Bool := do
  let c ← d.cycle e
  return c.any (fun i => decide ((d.eAt i).origin = v))

/-- `HalfEdge.update_face_in_cycle(face)`. -/
def DCEL.update_face_in_cycle (d : DCEL) (e : ℕ) (f : ℕ) : Except String DCEL := do
  let c ← d.cycle e
  return c.foldl (fun dd i => dd.modE i (fun r => { r with face := some f })) d

/-- `HalfEdge.is_cycle_clockwise()`: shoelace / trapezoid formula. -/
def DCEL.is_cycle_clockwise (d : DCEL) (e : ℕ) : Except String Bool := do
  let c ← d.cycle e
  let a := c.foldl (fun acc i =>
    acc.add (((d.originPt i).y.add (d.destPt i).y).mul ((d.originPt i).x.sub (d.destPt i).x)))
    (Frac.ofInt 0)
  return a.blt EPSILON.neg

/-- `Vertex.outgoing_edges()`. -/
def outgoingAux (d : DCEL) (start : ℕ) : ℕ → ℕ → List ℕ → Except String (List ℕ)
  | 0, _, _ => .error "outgoing loop exceeded arena size"
  | fuel + 1, cur, acc =>
    let nxt := (d.eAt (d.eAt cur).twin).next
    if nxt = start then .ok acc.reverse
    else outgoingAux d start fuel nxt (nxt :: acc)

def DCEL.outgoing_edges (d : DCEL) (v : ℕ) : Except String (List ℕ) :=
  let e0 := (d.vAt v).edge
  if d.dest e0 = v then .ok []
  else outgoingAux d e0 (d.edges.length + 1) e0 [e0]

/-- `Face.outer_half_edges()`. -/
def DCEL.outer_half_edges (d : DCEL) (f : ℕ) : Except String (List ℕ) :=
  match (d.fAt f).outer with
  | none => .ok []
  | some e => d.cycle e

/-- `Face.inner_half_edges()`. -/
def DCEL.inner_half_edges (d : DCEL) (f : ℕ) : Except String (List ℕ) :=
  (d.fAt f).inner.foldlM (fun acc c => do
    let cy ← d.cycle c
    return acc ++ cy) []

/-- `Face.contains(search_point)`: ray casting from `(-EPSILON, y)`. -/
def DCEL.face_contains (d : DCEL) (f : ℕ) (p : Point) : Except String Bool := do
  let ray ← mkLineSeg ⟨EPSILON.neg, p.y⟩ p
  let ohe ← d.outer_half_edges f
  ohe.foldlM (fun inside ei => do
    let op := d.originPt ei
    let dp := d.destPt ei
    let ls ← mkLineSeg op dp
    match ls.inter ray with
    | .ipoint ip =>
      if (decide (ip ≠ op) || dp.y.blt p.y) && (decide (ip ≠ dp) || op.y.blt p.y)
      then return (!inside) else return inside
    | _ => return inside) false

/-- `find_containing_face(point)`: first inner face containing the point,
else the outer face (index 0). -/
def DCEL.find_containing_face (d : DCEL) (p : Point) : Except String ℕ := do
  let hits ← (List.range d.faces.length).filterM (fun i =>
    if (d.fAt i).isOuter then pure false else d.face_contains i p)
  match hits with
  | i :: _ => return i
  | [] => return 0

/-- `point_between_edge_and_next(point, edge)` (static, three-case
orientation test; all orientations are evaluated eagerly as in the
source). -/
def DCEL.point_between_edge_and_next (d : DCEL) (p : Point) (e : ℕ) : Except String Bool := do
  let e1 := (d.eAt e).next
  let e0o := d.originPt e
  let e0d := d.destPt e
  let e1o := d.originPt e1
  let e1d := d.destPt e1
  if (d.eAt e).twin = e1 then return true
  else do
    let o0 ← p.orientation e0o e0d
    let o1 ← p.orientation e1o e1d
    let o2 ← e1d.orientation e0o e0d
    let o3 ← e0o.orientation e1o e1d
    return (decide (o0 = .LEFT) && decide (o1 = .LEFT)) ||
           (decide (o0 = .LEFT) && decide (o2 = .RIGHT)) ||
           (decide (o1 = .LEFT) && decide (o3 = .RIGHT))

/-- `find_splitting_face(vertex, point)`: returns the incident-face field of
the first matching edge twin (which may be `None`, as in the source). -/
def findSplitAux (d : DCEL) (p : Point) : List ℕ → Except String (Option ℕ)
  | [] => .error "malformed DCEL: point must split a face around vertex"
  | e :: rest => do
    let b ← d.point_between_edge_and_next p ((d.eAt e).twin)
    if b then return (d.eAt (d.eAt e).twin).face
    else findSplitAux d p rest

def DCEL.find_splitting_face (d : DCEL) (v : ℕ) (p : Point) : Except String (Option ℕ) := do
  let out ← d.outgoing_edges v
  match out with
  | [] => throw "vertex should be connected to face boundary"
  | _ => findSplitAux d p out

end GeoNotebooks

namespace GeoNotebooks

/-! ## DCEL mutators (dcel.py) -/

/-- `clear()`: only the outer face (flagged `_is_outer`) exists. -/
def emptyDCEL : DCEL := ⟨[], [], [⟨none, true, []⟩]⟩

/-- The scan `for vertex in self._vertices: if point is vertex.point` of
`add_vertex`, with object identity as token equality. -/
def findVertexByPid : List Vertex → ℕ → ℕ → Option ℕ
  | [], _, _ => none
  | v :: rest, pid, i => if v.pid = pid then some i else findVertexByPid rest pid (i + 1)

/-- `_on_edge(point)`: all edges (in list order) whose endpoints differ and
whose orientation test yields BETWEEN; an odd count raises. -/
def DCEL.on_edge (d : DCEL) (p : Point) : Except String (Option ℕ) := do
  let found ← (List.range d.edges.length).filterM (fun i => do
    if d.originPt i = d.destPt i then pure false
    else do
      let o ← p.orientation (d.originPt i) (d.destPt i)
      return decide (o = .BETWEEN))
  if found.length % 2 = 1 then throw "point lies on an impossible number of edges"
  else match found with
    | [] => return none
    | e :: _ => return (some e)

/-- `add_vertex_in_edge(edge, point)`.  Notable: the malformed-input check
keeps the operator precedence of the source line
`if not edge.origin.point != edge.destination.point and point.orientation(...) == ORT.BETWEEN:`
where `not` binds only the first comparison, so the branch is reachable
only for a degenerate edge (and its orientation call raises first).  Past
the endpoint no-op, the split path appends the new vertex and its two fresh
half-edges (lines 206-210), reads `edge.next` and `edge.twin.next`, and
then raises AttributeError at line 216 (`new_vertex.edge.twin = edge.twin`
assigns the getter-only property `HalfEdge.twin`), so no split ever
completes; the appended records stay. -/
def DCEL.add_vertex_in_edge (d : DCEL) (e : ℕ) (p : Point) (pid : ℕ) :
    DCEL × Except String (Option ℕ) :=
  if d.edges.length ≤ e then (d, .error "edge should already be part of the DCEL")
  else
    let op := d.originPt e
    let dp := d.destPt e
    -- `(not op != dp) and point.orientation(op, dp) == BETWEEN`, short-circuit
    let check : Except String Bool :=
      if op = dp then do
        let o ← p.orientation op dp
        return decide (o = .BETWEEN)
      else pure false
    match check with
    | .error msg => (d, .error msg)
    | .ok true => (d, .error "point should lie on the edge")
    | .ok false =>
      if op = p ∨ dp = p then (d, .ok none)
      else
        -- Vertex(point) and HalfEdge(new_vertex) allocation and appends
        let vi := d.vertices.length
        let nvE := d.edges.length
        let nhe := d.edges.length + 1
        let d1 : DCEL := { d with
          vertices := d.vertices ++ [⟨p, pid, nvE⟩],
          edges := d.edges ++ [⟨vi, nvE, nvE, nvE, none⟩, ⟨vi, nhe, nhe, nhe, none⟩] }
        -- line 216: `new_vertex.edge.twin = edge.twin` assigns a getter-only
        -- property and raises
        (d1, .error "AttributeError: property twin of HalfEdge object has no setter")

/-- `add_vertex(point)`. -/
def DCEL.add_vertex (d : DCEL) (p : Point) (pid : ℕ) : DCEL × Except String (Option ℕ) :=
  match findVertexByPid d.vertices pid 0 with
  | some i => (d, .ok (some i))
  | none =>
    match d.on_edge p with
    | .error msg => (d, .error msg)
    | .ok (some e) => d.add_vertex_in_edge e p pid
    | .ok none =>
      let vi := d.vertices.length
      let ei := d.edges.length
      let d1 : DCEL := { d with
        vertices := d.vertices ++ [⟨p, pid, ei⟩],
        edges := d.edges ++ [⟨vi, ei, ei, ei, none⟩] }
      match d1.find_containing_face p with
      | .error msg => (d1, .error msg)
      | .ok f => (d1.modE ei (fun r => { r with face := some f }), .ok (some vi))

/-- The `while not point_between_edge_and_next(...)` angular-slot search of
`_add_edge`. -/
def angularAux (d : DCEL) (target : Point) (start : ℕ) : ℕ → ℕ → Except String ℕ
  | 0, _ => .error "angular search exceeded arena size"
  | fuel + 1, cur => do
    let b ← d.point_between_edge_and_next target cur
    if b then return cur
    else
      let nxt := (d.eAt (d.eAt cur).next).twin
      if nxt = start then throw "could not find a suitable edge while inserting edge"
      else angularAux d target start fuel nxt

def DCEL.angular_search (d : DCEL) (v : ℕ) (target : Point) : Except String ℕ :=
  let e := (d.vAt v).edge
  let se := (d.eAt e).twin
  if e ≠ (d.eAt e).twin ∧ (d.eAt e).twin ≠ (d.eAt e).prev then
    angularAux d target se (d.edges.length + 1) se
  else .ok se

/-- `_split_face(edge, face)`. -/
def DCEL.split_face (d : DCEL) (e : ℕ) (f : ℕ) : DCEL × Except String ℕ :=
  match d.is_cycle_clockwise e with
  | .error msg => (d, .error msg)
  | .ok cw =>
    let inner_edge := if ¬ cw then e else (d.eAt e).twin
    let nf := d.faces.length
    let d1 : DCEL := { d with faces := d.faces ++ [⟨some inner_edge, false, []⟩] }
    match d1.is_cycle_clockwise ((d1.eAt inner_edge).twin) with
    | .error msg => (d1, .error msg)
    | .ok cw2 =>
      let d2 := if ¬ cw2
        then d1.modF f (fun r => { r with outer := some ((d1.eAt inner_edge).twin) })
        else d1
      match d2.update_face_in_cycle inner_edge nf with
      | .error msg => (d2, .error msg)
      | .ok d3 => (d3, .ok nf)

/-- One moved component of `_fix_inner_components`: remove from the old
face, append to the new face, rewrite the cycle faces. -/
def moveComponents (oldf newf : ℕ) : DCEL → List ℕ → DCEL × Option String
  | d, [] => (d, none)
  | d, c :: rest =>
    let d1 := d.modF oldf (fun r => { r with inner := r.inner.erase c })
    let d2 := d1.modF newf (fun r => { r with inner := r.inner ++ [c] })
    match d2.update_face_in_cycle c newf with
    | .error msg => (d2, some msg)
    | .ok d3 => moveComponents oldf newf d3 rest

/-- `_fix_inner_components(edge_0, edge_1, old_face, new_face)`. -/
def DCEL.fix_inner_components (d : DCEL) (e0 e1 : ℕ) (oldf : ℕ) (newf : Option ℕ) :
    DCEL × Option String :=
  let keepRes : Except String (List ℕ) := (d.fAt oldf).inner.filterM (fun c => do
    if (d.eAt c).face = some oldf then do
      let cy ← d.cycle c
      return !(cy.contains e0) && !(cy.contains e1)
    else pure false)
  match keepRes with
  | .error msg => (d, some msg)
  | .ok kept =>
    let d1 := d.modF oldf (fun r => { r with inner := kept })
    -- add one of the half edges if both are not part of the outer component
    let addRes : Except String DCEL :=
      if (d1.fAt oldf).isOuter then
        pure (d1.modF oldf (fun r =>
          { r with inner := r.inner ++ [if (d1.eAt e0).face = some oldf then e0 else e1] }))
      else do
        let oc ← match (d1.fAt oldf).outer with
          | some oc => d1.cycle oc
          | none => throw "outer component is None"
        if oc.contains e0 || oc.contains e1 then pure d1
        else pure (d1.modF oldf (fun r =>
          { r with inner := r.inner ++ [if (d1.eAt e0).face = some oldf then e0 else e1] }))
    match addRes with
    | .error msg => (d1, some msg)
    | .ok d2 =>
      match newf with
      | none => (d2, none)
      | some nf =>
        let moveRes : Except String (List ℕ) := (d2.fAt oldf).inner.filterM (fun c => do
          let b ← d2.face_contains nf ((d2.vAt (d2.eAt c).origin).point)
          if b then do
            let cy ← d2.cycle c
            return !(cy.contains e0 || cy.contains e1)
          else pure false)
        match moveRes with
        | .error msg => (d2, some msg)
        | .ok toMove => moveComponents oldf nf d2 toMove

end GeoNotebooks

namespace GeoNotebooks

/-- The face-resolution block of `_add_edge` (lines 100-127): yields
`face_0`, `face_1`, the `new_face` flag, and the state (the both-isolated
branch appends `half_edge_0` to `face_0.inner_components` before the
equality check). -/
def DCEL.resolve_faces (d : DCEL) (v0 v1 : ℕ) (he0 : ℕ) :
    DCEL × Except String (Option ℕ × Option ℕ × Bool) :=
  let res : Except String (Option ℕ × Option ℕ × Bool × Bool) := do
    let out0 ← d.outgoing_edges v0
    let out1 ← d.outgoing_edges v1
    if out0.length ≠ 0 ∧ out1.length ≠ 0 then do
      let f0 ← d.find_splitting_face v0 (d.pointOf v1)
      let f1 ← d.find_splitting_face v1 (d.pointOf v0)
      let f0i ← match f0 with
        | some i => pure i
        | none => throw "attribute error: face is None"
      let innerHits ← (d.fAt f0i).inner.filterM (fun c => do
        let b0 ← d.vertex_on_cycle c v0
        if b0 then d.vertex_on_cycle c v1 else pure false)
      let new_inner_face := 1 ≤ innerHits.length
      let outer_split ←
        if (d.fAt f0i).isOuter then pure false
        else do
          let oc ← match (d.fAt f0i).outer with
            | some oc => pure oc
            | none => throw "attribute error: outer component is None"
          let b0 ← d.vertex_on_cycle oc v0
          if b0 then d.vertex_on_cycle oc v1 else pure false
      return (f0, f1, new_inner_face || outer_split, false)
    else if out0.length ≠ 0 then do
      let f0 ← d.find_splitting_face v0 (d.pointOf v1)
      let f1 ← d.find_containing_face (d.pointOf v1)
      return (f0, some f1, false, false)
    else if out1.length ≠ 0 then do
      let f0 ← d.find_containing_face (d.pointOf v0)
      let f1 ← d.find_splitting_face v1 (d.pointOf v0)
      return (some f0, f1, false, false)
    else do
      let f0 ← d.find_containing_face (d.pointOf v0)
      let f1 ← d.find_containing_face (d.pointOf v1)
      return (some f0, some f1, false, true)
  match res with
  | .error msg => (d, .error msg)
  | .ok (f0, f1, nf, appendInner) =>
    -- `face_0.inner_components.append(half_edge_0)` of the both-isolated case
    let d1 := if appendInner then
        match f0 with
        | some f0i => d.modF f0i (fun r => { r with inner := r.inner ++ [he0] })
        | none => d
      else d
    (d1, .ok (f0, f1, nf))

/-- `_add_edge(vertex_0, vertex_1)` (dcel.py lines 86-172): half-edge
allocation, face resolution (with the different-faces and angular-slot
errors), the two `incident_face` setter calls — and then the splice
`half_edge_0.twin = half_edge_1` at line 154, which assigns the getter-only
property `HalfEdge.twin` and raises AttributeError, so no invocation ever
completes; every mutation before that line persists. -/
def DCEL.add_edge (d : DCEL) (v0 v1 : ℕ) : DCEL × Option String :=
  -- allocate half_edge_0 / half_edge_1, reusing the representative edge of a
  -- vertex without outgoing connections
  let e0 := (d.vAt v0).edge
  let he0 := if (d.eAt e0).twin = e0 then e0 else d.edges.length
  let dA := if (d.eAt e0).twin = e0 then d
    else { d with edges := d.edges ++ [⟨v0, d.edges.length, d.edges.length, d.edges.length, none⟩] }
  let e1 := (dA.vAt v1).edge
  let he1 := if (dA.eAt e1).twin = e1 then e1 else dA.edges.length
  let dB := if (dA.eAt e1).twin = e1 then dA
    else { dA with edges := dA.edges ++ [⟨v1, dA.edges.length, dA.edges.length, dA.edges.length, none⟩] }
  match dB.resolve_faces v0 v1 he0 with
  | (dC, .error msg) => (dC, some msg)
  | (dC, .ok (f0, f1, _new_face)) =>
    if f0 ≠ f1 then (dC, some "vertices do not lie in the same face")
    else
      -- half_edge_0.incident_face = face_0; half_edge_1.incident_face = face_0
      let dD := (dC.modE he0 (fun r => { r with face := f0 })).modE he1
        (fun r => { r with face := f0 })
      match dD.angular_search v0 (dD.pointOf v1) with
      | .error msg => (dD, some msg)
      | .ok _ =>
        match dD.angular_search v1 (dD.pointOf v0) with
        | .error msg => (dD, some msg)
        | .ok _ =>
          -- line 154: `half_edge_0.twin = half_edge_1` assigns a getter-only
          -- property and raises
          (dD, some "AttributeError: property twin of HalfEdge object has no setter")

/-- The vertex scan of `add_edge_by_points` (latest coordinate match for
each endpoint, stopping once both are found). -/
def findVerts : List Vertex → Point → Point → Option ℕ → Option ℕ → ℕ → Option ℕ × Option ℕ
  | [], _, _, a, b, _ => (a, b)
  | v :: rest, p, q, a, b, i =>
    let a' := if v.point = p then some i else a
    let b' := if v.point = q then some i else b
    if a'.isSome && b'.isSome then (a', b')
    else findVerts rest p q a' b' (i + 1)

/-- `add_edge_by_points(point, other_point)`. -/
def DCEL.add_edge_by_points (d : DCEL) (p q : Point) : DCEL × Option String :=
  let (a, b) := findVerts d.vertices p q none none 0
  if (List.range d.edges.length).any (fun i =>
      decide (d.originPt i = p) && decide (d.destPt i = q)) then (d, none)
  else
    match a, b with
    | some v0, some v1 => d.add_edge v0 v1
    | _, _ => (d, some "both points need to be part of the DCEL to insert as an edge")

end GeoNotebooks

namespace GeoNotebooks

/-- The per-edge block of `_assert_well_formed`. -/
def DCEL.wf_edge_check (d : DCEL) (e : ℕ) : Except String Unit := do
  if (d.eAt e).twin = e then return ()
  else do
    if (d.eAt (d.eAt e).prev).next ≠ e then throw "prev-next connection error"
    if (d.eAt (d.eAt e).next).prev ≠ e then throw "next-prev connection error"
    if d.destPt ((d.eAt e).prev) ≠ d.originPt e then throw "prev.destination-origin error"
    if d.originPt ((d.eAt e).next) ≠ d.destPt e then throw "next.origin-destination error"
    if (d.lengthSq e).ble (EPSILON.mul EPSILON) then throw "edge of length zero"
    if (d.eAt (d.eAt e).twin).twin ≠ e then throw "invalid twin reference"
    if d.originPt e ≠ d.destPt ((d.eAt e).twin) ∨ d.destPt e ≠ d.originPt ((d.eAt e).twin) then
      throw "invalid twin point positions"
    let f ← match (d.eAt e).face with
      | some f => pure f
      | none => throw "attribute error: incident face is None"
    let oh ← d.outer_half_edges f
    let ih ← d.inner_half_edges f
    if ¬ (oh.contains e ∨ ih.contains e) then throw "edge face mismatch with face components"
    return ()

/-- The per-face block of `_assert_well_formed`. -/
def DCEL.wf_face_check (d : DCEL) (f : ℕ) : Except String Unit := do
  if (d.fAt f).isOuter ∧ (d.fAt f).outer ≠ none then throw "outer face has an outer component"
  if (d.fAt f).isOuter ∧ f ≠ 0 then throw "more than one outer face"
  let oh ← d.outer_half_edges f
  for e in oh do
    if (d.eAt e).face ≠ some f then throw "unexpected incident face of edge"
  for e in (d.fAt f).inner do
    if (d.eAt e).face ≠ some f then throw "unexpected incident face of inner component"
  return ()

/-- `_assert_well_formed()` (dcel.py lines 350-407): the well-formedness
checker; read-only. -/
def DCEL.assert_well_formed (d : DCEL) : Except String Unit := do
  if d.vertices.length = 0 then
    if d.vertices.length ≠ 0 ∨ d.edges.length ≠ 0 ∨ d.faces.length ≠ 1 then
      throw "malformed DCEL: should be empty"
    else return ()
  else do
    for e in List.range d.edges.length do
      d.wf_edge_check e
    for f in List.range d.faces.length do
      d.wf_face_check f
    return ()

end GeoNotebooks

namespace GeoNotebooks

/-! ## vertical_decomposition.py: state -/

/-- `VDLineSegment`: a line segment with the DCEL face above it. -/
structure VDSeg where
  ls : LineSeg
  aboveFace : Option ℕ
deriving DecidableEq, Repr

/-- `VDFace` (a trapezoid): top/bottom segment indices, boundary points, the
cached search leaf, and the four neighbor slots `_neighbors[0..3]` =
upper-right, upper-left, lower-left, lower-right. -/
structure VDTrap where
  top : ℕ
  bottom : ℕ
  leftP : Point
  rightP : Point
  leaf : Option ℕ
  ur : Option ℕ
  ul : Option ℕ
  ll : Option ℕ
  lr : Option ℕ
deriving DecidableEq, Repr

/-- The discriminant of a DAG node: `VDXNode` (point), `VDYNode` (segment
index), `VDLeaf` (trapezoid index). -/
inductive VDNodeData
  | xnode (p : Point)
  | ynode (seg : ℕ)
  | leaf (trap : ℕ)
deriving DecidableEq, Repr

/-- A DAG node: children `_left`/`_right` (for a y-node, left is `lower`
and right is `upper`) and the parent list. -/
structure VDNode where
  data : VDNodeData
  left : Option ℕ
  right : Option ℕ
  parents : List ℕ
deriving DecidableEq, Repr

/-- Combined state of `VerticalDecomposition` and `VDSearchStructure`:
arenas for segments, trapezoids and DAG nodes, the live `_trapezoids`
list, `_line_segments`, the root, and the bounding box. -/
structure VDState where
  segs : List VDSeg
  traps : List VDTrap
  nodes : List VDNode
  trapList : List ℕ
  lineSegs : List ℕ
  root : ℕ
  bbLeft : Frac
  bbRight : Frac
  bbLower : Frac
  bbUpper : Frac
deriving DecidableEq, Repr

def dfltPoint : Point := ⟨⟨0, 1⟩, ⟨0, 1⟩⟩

def dfltPoint1 : Point := ⟨⟨0, 1⟩, ⟨1, 1⟩⟩

def dfltSeg : VDSeg := ⟨⟨dfltPoint, dfltPoint1⟩, none⟩

def dfltTrap : VDTrap := ⟨0, 0, dfltPoint, dfltPoint, none, none, none, none, none⟩

def dfltNode : VDNode := ⟨.leaf 0, none, none, []⟩

def VDState.sAt (s : VDState) (i : ℕ) : VDSeg := s.segs.getD i dfltSeg

def VDState.tAt (s : VDState) (i : ℕ) : VDTrap := s.traps.getD i dfltTrap

def VDState.nAt (s : VDState) (i : ℕ) : VDNode := s.nodes.getD i dfltNode

def VDState.modT (s : VDState) (i : ℕ) (f : VDTrap → VDTrap) : VDState :=
  { s with traps := listSet s.traps i (f (s.tAt i)) }

def VDState.modN (s : VDState) (i : ℕ) (f : VDNode → VDNode) : VDState :=
  { s with nodes := listSet s.nodes i (f (s.nAt i)) }

/-- `upper_right_neighbor` setter: writes slot 0 and the neighbor's
slot 1 back-pointer. -/
def VDState.set_ur (s : VDState) (t : ℕ) (n : Option ℕ) : VDState :=
  let s1 := s.modT t (fun r => { r with ur := n })
  match n with
  | some m => s1.modT m (fun r => { r with ul := some t })
  | none => s1

/-- `upper_left_neighbor` setter. -/
def VDState.set_ul (s : VDState) (t : ℕ) (n : Option ℕ) : VDState :=
  let s1 := s.modT t (fun r => { r with ul := n })
  match n with
  | some m => s1.modT m (fun r => { r with ur := some t })
  | none => s1

/-- `lower_left_neighbor` setter. -/
def VDState.set_ll (s : VDState) (t : ℕ) (n : Option ℕ) : VDState :=
  let s1 := s.modT t (fun r => { r with ll := n })
  match n with
  | some m => s1.modT m (fun r => { r with lr := some t })
  | none => s1

/-- `lower_right_neighbor` setter. -/
def VDState.set_lr (s : VDState) (t : ℕ) (n : Option ℕ) : VDState :=
  let s1 := s.modT t (fun r => { r with lr := n })
  match n with
  | some m => s1.modT m (fun r => { r with ll := some t })
  | none => s1

/-- The `neighbors` bulk setter: upper-right, upper-left, lower-left,
lower-right, in that order. -/
def VDState.set_nbrs (s : VDState) (t : ℕ) (l : List (Option ℕ)) : VDState :=
  (((s.set_ur t (l.getD 0 none)).set_ul t (l.getD 1 none)).set_ll t
    (l.getD 2 none)).set_lr t (l.getD 3 none)

/-- `VDFace.__init__`: allocate a trapezoid. -/
def VDState.newTrap (s : VDState) (top bottom : ℕ) (lp rp : Point) : VDState × ℕ :=
  ({ s with traps := s.traps ++ [({ top := top, bottom := bottom, leftP := lp, rightP := rp, leaf := none, ur := none, ul := none, ll := none, lr := none } : VDTrap)] },
   s.traps.length)

/-- `VDLeaf.__init__(face)`: allocate a leaf node and point the trapezoid
back at it. -/
def VDState.newLeaf (s : VDState) (t : ℕ) : VDState × ℕ :=
  let ni := s.nodes.length
  let s1 := { s with nodes := s.nodes ++ [({ data := .leaf t, left := none, right := none, parents := [] } : VDNode)] }
  (s1.modT t (fun r => { r with leaf := some ni }), ni)

/-- The `parent` setter of `VDNode`: appended unless already present. -/
def VDState.add_parent (s : VDState) (child par : ℕ) : VDState :=
  s.modN child (fun r =>
    if r.parents.contains par then r else { r with parents := r.parents ++ [par] })

/-- The `left` child setter (also `lower` of a y-node). -/
def VDState.set_left (s : VDState) (node : ℕ) (child : Option ℕ) : VDState :=
  let s1 := s.modN node (fun r => { r with left := child })
  match child with
  | some c => s1.add_parent c node
  | none => s1

/-- The `right` child setter (also `upper` of a y-node). -/
def VDState.set_right (s : VDState) (node : ℕ) (child : Option ℕ) : VDState :=
  let s1 := s.modN node (fun r => { r with right := child })
  match child with
  | some c => s1.add_parent c node
  | none => s1

/-- The parent-slot rewrite loop of `VDNode.replace_with`. -/
def replaceParentSlots (old newN : ℕ) : VDState → List ℕ → VDState × Option String
  | s, [] => (s, none)
  | s, p :: rest =>
    if (s.nAt p).left = some old then
      replaceParentSlots old newN (s.modN p (fun r => { r with left := some newN })) rest
    else if (s.nAt p).right = some old then
      replaceParentSlots old newN (s.modN p (fun r => { r with right := some newN })) rest
    else (s, some "node needs to be a child of its parent")

/-- `VDNode.replace_with(new_node)`: returns `false` for the root. -/
def VDState.replace_with (s : VDState) (old newN : ℕ) : VDState × Except String Bool :=
  let ps := (s.nAt old).parents
  if ps = [] then (s, .ok false)
  else
    match replaceParentSlots old newN s ps with
    | (s1, some msg) => (s1, .error msg)
    | (s1, none) =>
      let s2 := (s1.modN newN (fun r => { r with parents := ps })).modN old
        (fun r => { r with parents := [] })
      (s2, .ok true)

/-- DAG descent `VDNode.search(point, line_segment)`: x-nodes branch by the
lexicographic order (symbolic shear), y-nodes by vertical orientation with
the slope tie-break during insertion. -/
def searchNode (s : VDState) : ℕ → ℕ → Point → Option ℕ → Except String ℕ
  | 0, _, _, _ => .error "search exceeded arena size"
  | fuel + 1, ni, p, cand =>
    let desc : Option ℕ → Except String ℕ := fun child =>
      match child with
      | some c => searchNode s fuel c p cand
      | none => .error "attribute error: child is None"
    match (s.nAt ni).data with
    | .leaf t => .ok t
    | .xnode np =>
      if p.horizontal_orientation np = .LEFT then desc (s.nAt ni).left
      else desc (s.nAt ni).right
    | .ynode segIdx =>
      let seg := (s.sAt segIdx).ls
      let cr := p.vertical_orientation seg
      match cand with
      | none =>
        -- a pure query: `line_segment is None` satisfies the first branch
        -- when `cr == ON`
        if cr = .ABOVE ∨ cr = .ON then desc (s.nAt ni).right
        else desc (s.nAt ni).left
      | some li =>
        let sl := (s.sAt li).ls.slope
        let sn := seg.slope
        if cr = .ABOVE ∨ (cr = .ON ∧ slopeGt sl sn) then desc (s.nAt ni).right
        else if cr = .BELOW ∨ (cr = .ON ∧ slopeLt sl sn) then desc (s.nAt ni).left
        else .error "line segment is already in the vertical decomposition"

end GeoNotebooks

namespace GeoNotebooks

/-! ## vertical_decomposition.py: decomposition update -/

/-- `VerticalDecomposition.__init__` together with
`VDSearchStructure.__init__`: bounding-box segments (the bottom one carries
the DCEL outer face, index 0), one trapezoid spanning the box whose
corner points are the two upper corners, and a single leaf as root. -/
def initVD (l r lo up : Frac) : Except String VDState := do
  let ulP : Point := ⟨l, up⟩
  let urP : Point := ⟨r, up⟩
  let llP : Point := ⟨l, lo⟩
  let lrP : Point := ⟨r, lo⟩
  let topSeg ← mkLineSeg ulP urP
  let bottomSeg ← mkLineSeg llP lrP
  let s0 : VDState :=
    { segs := [⟨topSeg, none⟩, ⟨bottomSeg, some 0⟩]
      traps := [{ top := 0, bottom := 1, leftP := ulP, rightP := urP, leaf := none,
                  ur := none, ul := none, ll := none, lr := none }]
      nodes := []
      trapList := [0]
      lineSegs := []
      root := 0
      bbLeft := l, bbRight := r, bbLower := lo, bbUpper := up }
  let (s1, n0) := s0.newLeaf 0
  return { s1 with root := n0 }

/-- `_partition_trapezoid(face, line_segment)`: split a trapezoid into up
to four pieces (left piece, above, below, right piece). -/
def VDState.partition_trapezoid (s : VDState) (f : ℕ) (lsIdx : ℕ) :
    VDState × (Option ℕ × ℕ × ℕ × Option ℕ) :=
  let seg := (s.sAt lsIdx).ls
  let (s1, tt) := s.newTrap (s.tAt f).top lsIdx seg.left seg.right
  let (s2, tb) := s1.newTrap lsIdx (s1.tAt f).bottom seg.left seg.right
  let hortL := seg.left.horizontal_orientation (s2.tAt f).leftP
  let res3 : VDState × Option ℕ :=
    if hortL = .LEFT then
      ((s2.modT tt (fun rec => { rec with leftP := (s2.tAt f).leftP })).modT tb
        (fun rec => { rec with leftP := (s2.tAt f).leftP }), none)
    else if hortL = .EQUAL then
      ((s2.set_ul tt (s2.tAt f).ul).set_ll tb (s2.tAt f).ll, none)
    else
      let (sA, tlI) := s2.newTrap (s2.tAt f).top (s2.tAt f).bottom (s2.tAt f).leftP seg.left
      (sA.set_nbrs tlI [some tt, (sA.tAt f).ul, (sA.tAt f).ll, some tb], some tlI)
  let s3 := res3.1
  let tl := res3.2
  let hortR := seg.right.horizontal_orientation (s3.tAt f).rightP
  let res4 : VDState × Option ℕ :=
    if hortR = .RIGHT then
      ((s3.modT tt (fun rec => { rec with rightP := (s3.tAt f).rightP })).modT tb
        (fun rec => { rec with rightP := (s3.tAt f).rightP }), none)
    else if hortR = .EQUAL then
      ((s3.set_ur tt (s3.tAt f).ur).set_lr tb (s3.tAt f).lr, none)
    else
      let (sA, trI) := s3.newTrap (s3.tAt f).top (s3.tAt f).bottom seg.right (s3.tAt f).rightP
      (sA.set_nbrs trI [(sA.tAt f).ur, some tt, some tb, (sA.tAt f).lr], some trI)
  (res4.1, (tl, tt, tb, res4.2))

/-- `_merge_trapezoids(trapezoid, line_segment, last_above, last_below)`. -/
def VDState.merge_trapezoids (s : VDState) (t lsIdx la lb : ℕ) :
    VDState × Except String (ℕ × ℕ) :=
  let seg := (s.sAt lsIdx).ls
  let vo := (s.tAt t).leftP.vertical_orientation seg
  if vo = .ABOVE then
    let s1 :=
      if (s.tAt t).rightP.vertical_orientation seg = .BELOW then
        (s.set_lr lb (s.tAt t).lr).set_ur lb ((s.set_lr lb (s.tAt t).lr).tAt t).ur
      else s
    let s2 := s1.modT lb (fun rec => { rec with rightP := (s1.tAt t).rightP })
    let s3 := s2.modT t (fun rec => { rec with bottom := lsIdx })
    let s4 := s3.set_ll t (some la)
    (s4, .ok (t, lb))
  else if vo = .BELOW then
    let s1 :=
      if (s.tAt t).rightP.vertical_orientation seg = .ABOVE then
        (s.set_lr la (s.tAt t).lr).set_ur la ((s.set_lr la (s.tAt t).lr).tAt t).ur
      else s
    let s2 := s1.modT la (fun rec => { rec with rightP := (s1.tAt t).rightP })
    let s3 := s2.modT t (fun rec => { rec with top := lsIdx })
    let s4 := s3.set_ul t (some lb)
    (s4, .ok (la, t))
  else (s, .error "point must not lie on the line induced by the line segment")

/-- The rightward neighbor walk of `VerticalDecomposition.update`
(collecting every further trapezoid the segment crosses). -/
def walkTraps (s : VDState) (seg : LineSeg) : ℕ → ℕ → List ℕ → Except String (List ℕ)
  | 0, _, _ => .error "trapezoid walk exceeded arena size"
  | fuel + 1, last, acc =>
    if seg.right.horizontal_orientation (s.tAt last).rightP = .RIGHT then
      let nxt : Option ℕ :=
        if (s.tAt last).rightP.vertical_orientation seg = .BELOW then (s.tAt last).ur
        else (s.tAt last).lr
      match nxt with
      | none => .error "attribute error: right neighbor is None"
      | some n => walkTraps s seg fuel n (acc ++ [n])
    else .ok acc

/-- The merge sweep over the strictly-intersected trapezoids. -/
def mergeSweep (lsIdx : ℕ) : VDState → ℕ → ℕ → List ℕ →
    VDState × Except String (ℕ × ℕ)
  | s, la, lb, [] => (s, .ok (la, lb))
  | s, la, lb, t :: rest =>
    match s.merge_trapezoids t lsIdx la lb with
    | (s1, .error msg) => (s1, .error msg)
    | (s1, .ok (la1, lb1)) => mergeSweep lsIdx s1 la1 lb1 rest

/-- `VerticalDecomposition.update(line_segment, left_point_face)`: returns
the invalidated trapezoids and the newly created / changed trapezoids. -/
def VDState.update (s : VDState) (lsIdx : ℕ) (lpf : ℕ) :
    VDState × Except String (List ℕ × List (Option ℕ)) :=
  let s0 := { s with lineSegs := s.lineSegs ++ [lsIdx] }
  let seg := (s0.sAt lsIdx).ls
  match walkTraps s0 seg (s0.traps.length + 1) lpf [] with
  | .error msg => (s0, .error msg)
  | .ok intersected =>
    if intersected = [] then
      -- simple case: the segment is contained in one trapezoid
      let (s1, (tl, tt, tb, tr)) := s0.partition_trapezoid lpf lsIdx
      let s2 := { s1 with trapList :=
        (s1.trapList.erase lpf) ++ ([tl, some tt, some tb, tr].filterMap id) }
      (s2, .ok ([lpf], [tl, some tt, some tb, tr]))
    else
      let rpf := intersected.getLast!
      let mid := intersected.dropLast
      -- retained neighbor pointers, read before any changes
      let upper_right := (s0.tAt lpf).ur
      let lower_right := (s0.tAt lpf).lr
      let upper_left := (s0.tAt rpf).ul
      let lower_left := (s0.tAt rpf).ll
      -- partition the trapezoid containing the left endpoint
      let (s1, (left_face, lfa, lfb, _)) := s0.partition_trapezoid lpf lsIdx
      let s2 := { s1 with trapList :=
        (s1.trapList.erase lpf) ++ (match left_face with | some t => [t] | none => []) }
      let voL := (s2.tAt lpf).rightP.vertical_orientation seg
      let s3res : VDState × Option String :=
        if voL = .ABOVE then (s2.set_ur lfa upper_right, none)
        else if voL = .BELOW then (s2.set_lr lfb lower_right, none)
        else (s2, some "point must not lie on the line induced by the line segment")
      match s3res with
      | (s3, some msg) => (s3, .error msg)
      | (s3, none) =>
        -- partition the trapezoid containing the right endpoint
        let (s4, (_, rfa, rfb, right_face)) := s3.partition_trapezoid rpf lsIdx
        let s5 := { s4 with trapList :=
          (s4.trapList.erase rpf) ++ (match right_face with | some t => [t] | none => []) }
        match mergeSweep lsIdx s5 lfa lfb mid with
        | (s6, .error msg) => (s6, .error msg)
        | (s6, .ok (la, lb)) =>
          let voR := (s6.tAt rfa).leftP.vertical_orientation seg
          if voR = .ABOVE then
            -- merge below the segment, discard right_face_below
            let s7 := s6.modT lb (fun rec => { rec with rightP := seg.right })
            let s8 := s7.set_lr lb (s7.tAt rfb).lr
            let s9 := s8.set_ur lb none
            let s10 := s9.set_lr la (some rfa)
            let s11 := s10.set_ul rfa upper_left
            let s12 := { s11 with trapList := s11.trapList ++ [lfa, lfb, rfa] }
            (s12, .ok ([lpf] ++ mid ++ [rpf], [left_face, some lfa, some lfb, some rfa, right_face]))
          else if voR = .BELOW then
            -- merge above the segment, discard right_face_above
            let s7 := s6.modT la (fun rec => { rec with rightP := seg.right })
            let s8 := s7.set_lr la none
            let s9 := s8.set_ur la (s8.tAt rfa).ur
            let s10 := s9.set_ur lb (some rfb)
            let s11 := s10.set_ll rfb lower_left
            let s12 := { s11 with trapList := s11.trapList ++ [lfa, lfb, rfb] }
            (s12, .ok ([lpf] ++ mid ++ [rpf], [left_face, some lfa, some lfb, some rfb, right_face]))
          else (s6, .error "point must not lie on the line induced by the line segment")

end GeoNotebooks

namespace GeoNotebooks

/-! ## vertical_decomposition.py: search-structure update -/

/-- The trapezoid of a leaf node (`leaf._face`). -/
def VDState.leafFace (s : VDState) (n : ℕ) : Except String ℕ :=
  match (s.nAt n).data with
  | .leaf t => .ok t
  | _ => .error "attribute error: node has no face"

/-- `_build_subtree(line_segment, leafs)`: a y-node wrapped by up to two
x-nodes, allocated here; `leafs` has length 3 or 4. -/
def VDState.build_subtree (s : VDState) (lsIdx : ℕ) (leafs : List (Option ℕ)) :
    VDState × Except String ℕ :=
  if leafs.length < 3 ∨ 4 < leafs.length then
    (s, .error "the list of leafs needs to be of length 3 or 4 to build a subtree")
  else
    let seg := (s.sAt lsIdx).ls
    let yi := s.nodes.length
    let s1 := { s with nodes := s.nodes ++
      [({ data := .ynode lsIdx, left := none, right := none, parents := [] } : VDNode)] }
    let s2 := (s1.set_right yi (leafs.getD 1 none)).set_left yi (leafs.getD 2 none)
    let res3 : VDState × ℕ :=
      if 3 < leafs.length ∧ leafs.getD 3 none ≠ none then
        let xi := s2.nodes.length
        let sA := { s2 with nodes := s2.nodes ++
          [({ data := .xnode seg.right, left := none, right := none, parents := [] } : VDNode)] }
        ((sA.set_left xi (some yi)).set_right xi (leafs.getD 3 none), xi)
      else (s2, yi)
    let s3 := res3.1
    let tree1 := res3.2
    if leafs.getD 0 none ≠ none then
      let xi := s3.nodes.length
      let sA := { s3 with nodes := s3.nodes ++
        [({ data := .xnode seg.left, left := none, right := none, parents := [] } : VDNode)] }
      (((sA.set_left xi (leafs.getD 0 none)).set_right xi (some tree1)), .ok xi)
    else (s3, .ok tree1)

/-- The middle loop of `VDSearchStructure.update`: replace each strictly
intersected leaf by a single y-node; `opp` tracks the leaf on the other
side of the segment.  The suffix still to process drives the recursion,
`i` is the position of its head inside `mid`; the access to position
`i - 1` with `i = 0` reproduces the Python negative-index access
`unvalid_leafs[i-1]` (the last element). -/
def ssMiddleLoop (lsIdx : ℕ) (mid : List ℕ) : VDState → List ℕ → ℕ → ℕ → VertOrient →
    VDState × Except String (ℕ × VertOrient)
  | s, [], _, opp, oort => (s, .ok (opp, oort))
  | s, li :: rest, i, opp, oort =>
    let seg := (s.sAt lsIdx).ls
    let yi := s.nodes.length
    let s1 := { s with nodes := s.nodes ++
      [({ data := .ynode lsIdx, left := none, right := none, parents := [] } : VDNode)] }
    match s1.replace_with li yi with
    | (s2, .error msg) => (s2, .error msg)
    | (s2, .ok _) =>
      match s2.leafFace li with
      | .error msg => (s2, .error msg)
      | .ok face =>
        let uort := (s2.tAt face).leftP.vertical_orientation seg
        let stepRes : VDState × Except String (ℕ × VertOrient) :=
          if uort = oort then
            let prevLeaf := if i = 0 then mid.getD (mid.length - 1) 0 else mid.getD (i - 1) 0
            match s2.leafFace prevLeaf with
            | .error msg => (s2, .error msg)
            | .ok pface =>
              (s2, .ok (prevLeaf, (s2.tAt pface).leftP.vertical_orientation seg))
          else (s2, .ok (opp, oort))
        match stepRes with
        | (s3, .error msg) => (s3, .error msg)
        | (s3, .ok (opp1, oort1)) =>
          let s4 :=
            if uort = .ABOVE then (s3.set_right yi (some li)).set_left yi (some opp1)
            else (s3.set_right yi (some opp1)).set_left yi (some li)
          ssMiddleLoop lsIdx mid s4 rest (i + 1) opp1 oort1

end GeoNotebooks

namespace GeoNotebooks

/-- `VDSearchStructure.update(line_segment, unvalid_leafs, new_leafs)`. -/
def VDState.ss_update (s : VDState) (lsIdx : ℕ) (unvalid : List (Option ℕ))
    (newLeafs : List (Option ℕ)) : VDState × Option String :=
  let derefs : Option ℕ → Except String ℕ := fun o =>
    match o with
    | some n => .ok n
    | none => .error "attribute error: leaf is None"
  if unvalid.length = 1 then
    match s.build_subtree lsIdx (newLeafs.take 4) with
    | (s1, .error msg) => (s1, some msg)
    | (s1, .ok tree) =>
      match derefs (unvalid.getD 0 none) with
      | .error msg => (s1, some msg)
      | .ok u0 =>
        match s1.replace_with u0 tree with
        | (s2, .error msg) => (s2, some msg)
        | (s2, .ok true) => (s2, none)
        | (s2, .ok false) => ({ s2 with root := tree }, none)
  else
    match derefs (unvalid.getD 0 none) with
    | .error msg => (s, some msg)
    | .ok leftLeaf =>
      match s.build_subtree lsIdx (newLeafs.take 3) with
      | (s1, .error msg) => (s1, some msg)
      | (s1, .ok tree1) =>
        match s1.replace_with leftLeaf tree1 with
        | (s2, .error msg) => (s2, some msg)
        | (s2, .ok _) =>
          match derefs (unvalid.getD (unvalid.length - 1) none) with
          | .error msg => (s2, some msg)
          | .ok rightLeaf =>
            let midO := (unvalid.drop 1).dropLast
            match midO.foldlM (fun acc o => do
                let n ← derefs o
                pure (acc ++ [n])) ([] : List ℕ) with
            | .error msg => (s2, some msg)
            | .ok mid =>
              let seg := (s2.sAt lsIdx).ls
              -- initial opposite leaf and its orientation, then the middle loop
              let oppoRes : VDState × Except String (ℕ × Bool) :=
                if mid ≠ [] then
                  match s2.leafFace (mid.getD 0 0) with
                  | .error msg => (s2, .error msg)
                  | .ok f0 =>
                    match derefs (if (s2.tAt f0).bottom = lsIdx
                      then newLeafs.getD 2 none else newLeafs.getD 1 none) with
                    | .error msg => (s2, .error msg)
                    | .ok oppo0 =>
                      match s2.leafFace oppo0 with
                      | .error msg => (s2, .error msg)
                      | .ok of0 =>
                        let oort0 := (s2.tAt of0).rightP.vertical_orientation seg
                        match ssMiddleLoop lsIdx mid s2 mid 0 oppo0 oort0 with
                        | (s3, .error msg) => (s3, .error msg)
                        | (s3, .ok (opp1, oort1)) =>
                          -- `if new_leafs[-2]._face.left_point... == opp_ort`
                          match derefs (newLeafs.getD (newLeafs.length - 2) none) with
                          | .error msg => (s3, .error msg)
                          | .ok keptLeaf =>
                            match s3.leafFace keptLeaf with
                            | .error msg => (s3, .error msg)
                            | .ok kf =>
                              if (s3.tAt kf).leftP.vertical_orientation seg = oort1 then
                                (s3, .ok (mid.getD (mid.length - 1) 0, true))
                              else (s3, .ok (opp1, true))
                else
                  match derefs (newLeafs.getD (newLeafs.length - 2) none) with
                  | .error msg => (s2, .error msg)
                  | .ok keptLeaf =>
                    match s2.leafFace keptLeaf with
                    | .error msg => (s2, .error msg)
                    | .ok kf =>
                      match derefs (if (s2.tAt kf).bottom = lsIdx
                        then newLeafs.getD 2 none else newLeafs.getD 1 none) with
                      | .error msg => (s2, .error msg)
                      | .ok oppo0 => (s2, .ok (oppo0, true))
              match oppoRes with
              | (s4, .error msg) => (s4, some msg)
              | (s4, .ok (oppo, _)) =>
                match derefs (newLeafs.getD (newLeafs.length - 2) none) with
                | .error msg => (s4, some msg)
                | .ok keptLeaf =>
                  match s4.leafFace keptLeaf with
                  | .error msg => (s4, some msg)
                  | .ok kf =>
                    let subtreeRes : VDState × Except String ℕ :=
                      if (s4.tAt kf).bottom = lsIdx then
                        s4.build_subtree lsIdx
                          [none, newLeafs.getD (newLeafs.length - 2) none, some oppo,
                           newLeafs.getD (newLeafs.length - 1) none]
                      else if (s4.tAt kf).top = lsIdx then
                        s4.build_subtree lsIdx
                          [none, some oppo, newLeafs.getD (newLeafs.length - 2) none,
                           newLeafs.getD (newLeafs.length - 1) none]
                      else (s4, .error "kept face is not bounded by the inserted segment")
                    match subtreeRes with
                    | (s5, .error msg) => (s5, some msg)
                    | (s5, .ok tree2) =>
                      match s5.replace_with rightLeaf tree2 with
                      | (s6, .error msg) => (s6, some msg)
                      | (s6, .ok _) => (s6, none)

/-- `PointLocation.insert(line_segment)`. -/
def VDState.insert (s : VDState) (lsIdx : ℕ) : VDState × Option String :=
  match searchNode s (s.nodes.length + 1) s.root ((s.sAt lsIdx).ls.left) (some lsIdx) with
  | .error msg => (s, some msg)
  | .ok lpf =>
    match s.update lsIdx lpf with
    | (s1, .error msg) => (s1, some msg)
    | (s1, .ok (unvalid, newT)) =>
      let unvalidLeafs := unvalid.map (fun t => (s1.tAt t).leaf)
      let folded := newT.foldl (fun (acc : VDState × List (Option ℕ)) t =>
        match t with
        | some ti =>
          let r := acc.1.newLeaf ti
          (r.1, acc.2 ++ [some r.2])
        | none => (acc.1, acc.2 ++ [none])) (s1, [])
      folded.1.ss_update lsIdx unvalidLeafs folded.2

/-- `VDSearchStructure.query(point)`: descend with no candidate segment,
then resolve to the DCEL face above the trapezoid bottom boundary
(the point-sequence bookkeeping of the source is display-only). -/
def VDState.query (s : VDState) (p : Point) : Except String ℕ := do
  let t ← searchNode s (s.nodes.length + 1) s.root p none
  match (s.sAt (s.tAt t).bottom).aboveFace with
  | some f => return f
  | none => throw "attribute error: above face is None"

/-- `PointLocation.dcel_prepocessing(dcel)`: one `VDLineSegment` per
left-to-right half-edge, carrying its incident face. -/
def dcel_preprocessing (d : DCEL) : Except String (List VDSeg) :=
  (List.range d.edges.length).foldlM (fun acc i =>
    if (d.eAt i).origin = d.dest i then pure acc
    else if (d.eAt i).origin = (d.left_and_right i).1 then do
      let ls ← mkLineSeg (d.originPt i) (d.destPt i)
      pure (acc ++ [(⟨ls, (d.eAt i).face⟩ : VDSeg)])
    else pure acc) []

/-- `PointLocation.__init__(bounding_box, dcel)` with an explicit insertion
order standing in for the random shuffle.  After storing the box and the
DCEL and building the initial decomposition, the constructor calls
`build_vertical_decomposition`, whose first statement
`clear_vertical_decomposition` evaluates `DoublyConnectedEdgeList()` with
no arguments (vertical_decomposition.py line 86) although
`DoublyConnectedEdgeList.__init__` requires `points` and `edges`; the call
therefore always raises TypeError and no `PointLocation` object is ever
constructed, whatever the arguments. -/
def mkPointLocation (l r lo up : Frac) (d : DCEL) (order : List ℕ) :
    Except String (VDState × Option String) := do
  let base ← initVD l r lo up
  let derived ← dcel_preprocessing d
  let _s0 := { base with segs := base.segs ++ derived }
  let _order := order
  throw "TypeError: DoublyConnectedEdgeList takes 2 required positional arguments: points and edges"

end GeoNotebooks

namespace GeoNotebooks

/-! ## Concrete scenarios -/

/-- Integer-coordinate point. -/
def pt (x y : ℤ) : Point := ⟨Frac.ofInt x, Frac.ofInt y⟩

/-- `VDLineSegment.__init__(p, q)`: the `LineSegment` constructor check,
then `above_dcel_face = None`. -/
def mkVDSeg (p q : Point) : Except String VDSeg := do
  let ls ← mkLineSeg p q
  return ⟨ls, none⟩

def dfltVDState : VDState :=
  { segs := [], traps := [], nodes := [], trapList := [], lineSegs := [], root := 0,
    bbLeft := ⟨0, 1⟩, bbRight := ⟨0, 1⟩, bbLower := ⟨0, 1⟩, bbUpper := ⟨0, 1⟩ }

def getVD (e : Except String VDState) : VDState :=
  match e with
  | .ok s => s
  | .error _ => dfltVDState

/-- Two isolated vertices joined by `add_edge_by_points`: a plainly
non-self-intersecting `add_vertex` / `add_edge_by_points` sequence whose
edge would be far longer than epsilon. -/
def pair0 := emptyDCEL.add_vertex (pt 0 0) 1

def pair1 := pair0.1.add_vertex (pt 10 0) 2

def pair2 := pair1.1.add_edge_by_points (pt 0 0) (pt 10 0)

def pairDCEL : DCEL := pair2.1

/-- Scenario A of the design document: bounding box (0,0)-(40,40) and the
raw segments (2,6)-(15,4), (12,2)-(18,2), (8,8)-(20,8), inserted in that
order (arena indices 2, 3, 4). -/
def scenA0E : Except String VDState := do
  let base ← initVD (Frac.ofInt 0) (Frac.ofInt 40) (Frac.ofInt 0) (Frac.ofInt 40)
  let s1 ← mkVDSeg (pt 2 6) (pt 15 4)
  let s2 ← mkVDSeg (pt 12 2) (pt 18 2)
  let s3 ← mkVDSeg (pt 8 8) (pt 20 8)
  return { base with segs := base.segs ++ [s1, s2, s3] }

def scenA1 := (getVD scenA0E).insert 2

def scenA2 := scenA1.1.insert 3

def scenA3 := scenA2.1.insert 4

def scenA : VDState := scenA3.1

/-- One raw segment (5,5)-(15,10) inserted into the (0,0)-(40,40) box. -/
def oneSeg0E : Except String VDState := do
  let base ← initVD (Frac.ofInt 0) (Frac.ofInt 40) (Frac.ofInt 0) (Frac.ofInt 40)
  let sg ← mkVDSeg (pt 5 5) (pt 15 10)
  return { base with segs := base.segs ++ [sg] }

def oneSeg1 := (getVD oneSeg0E).insert 2

def oneSeg : VDState := oneSeg1.1

/-- A diamond-shaped DCEL state (a well-formed four-edge cycle on the
corners (10,5), (15,10), (10,15), (5,10)) plus an isolated vertex 4 at
(30,30) outside the diamond, whose lone half-edge 8 is self-linked in the
outer face.  The state is given literally: `_add_edge` cannot complete in
the source, so no linked-edge DCEL is reachable through it, and C5
quantifies over DCEL states, not over reachable ones.  Connecting corner
(10,5) to the isolated vertex resolves to different faces. -/
def c5base : DCEL :=
  { vertices := [{ point := { x := { num := 10, den := 1 }, y := { num := 5, den := 1 } }, pid := 1, edge := 0 },
               { point := { x := { num := 15, den := 1 }, y := { num := 10, den := 1 } }, pid := 2, edge := 1 },
               { point := { x := { num := 10, den := 1 }, y := { num := 15, den := 1 } }, pid := 3, edge := 2 },
               { point := { x := { num := 5, den := 1 }, y := { num := 10, den := 1 } }, pid := 4, edge := 3 },
               { point := { x := { num := 30, den := 1 }, y := { num := 30, den := 1 } }, pid := 9, edge := 8 }],
    edges := [{ origin := 0, twin := 1, prev := 6, next := 4, face := some 1 },
              { origin := 1, twin := 0, prev := 2, next := 7, face := some 0 },
              { origin := 2, twin := 4, prev := 3, next := 1, face := some 0 },
              { origin := 3, twin := 5, prev := 7, next := 2, face := some 0 },
              { origin := 1, twin := 2, prev := 0, next := 5, face := some 1 },
              { origin := 2, twin := 3, prev := 4, next := 6, face := some 1 },
              { origin := 3, twin := 7, prev := 5, next := 0, face := some 1 },
              { origin := 0, twin := 6, prev := 1, next := 3, face := some 0 },
              { origin := 4, twin := 8, prev := 8, next := 8, face := some 0 }],
    faces := [{ outer := none, isOuter := true, inner := [7] }, { outer := some 6, isOuter := false, inner := [] }] }

def c5res := c5base.add_edge_by_points (pt 10 5) (pt 30 30)

/-- A two-vertex DCEL state with the single edge (0,0)-(2,0) (half-edges 0
and 1 mutually twinned and linked, forming an inner component of the outer
face), given literally for the same reason as `c5base`. -/
def segDCEL : DCEL :=
  { vertices := [{ point := { x := { num := 0, den := 1 }, y := { num := 0, den := 1 } }, pid := 1, edge := 0 },
               { point := { x := { num := 2, den := 1 }, y := { num := 0, den := 1 } }, pid := 2, edge := 1 }],
    edges := [{ origin := 0, twin := 1, prev := 1, next := 1, face := some 0 },
              { origin := 1, twin := 0, prev := 0, next := 0, face := some 0 }],
    faces := [{ outer := none, isOuter := true, inner := [0] }] }

/-- A DCEL holding one isolated vertex at (3,3). -/
def isoDCEL : DCEL := (emptyDCEL.add_vertex (pt 3 3) 1).1

end GeoNotebooks


namespace GeoNotebooks

theorem vertices_setE (d : DCEL) (i : ℕ) (e : HalfEdge) : (d.setE i e).vertices = d.vertices := rfl

theorem vertices_modE (d : DCEL) (i : ℕ) (f : HalfEdge → HalfEdge) :
    (d.modE i f).vertices = d.vertices := rfl

theorem vertices_modF (d : DCEL) (i : ℕ) (f : DFace → DFace) :
    (d.modF i f).vertices = d.vertices := rfl

theorem vertices_foldl_modE (c : List ℕ) (f : ℕ) :
    ∀ d : DCEL, (c.foldl (fun dd i => dd.modE i (fun r => { r with face := some f })) d).vertices
      = d.vertices := by
  induction c with
  | nil => intro d; rfl
  | cons x xs ih => intro d; simpa using ih _

theorem vertices_update_face_in_cycle (d : DCEL) (e f : ℕ) (d' : DCEL)
    (h : d.update_face_in_cycle e f = .ok d') : d'.vertices = d.vertices := by
  unfold DCEL.update_face_in_cycle at h
  cases hc : d.cycle e with
  | error msg => rw [hc] at h; simp [Bind.bind, Except.bind] at h
  | ok c =>
    rw [hc] at h
    simp [Bind.bind, Except.bind, pure, Except.pure] at h
    rw [← h]
    exact vertices_foldl_modE c f d

theorem vertices_split_face (d : DCEL) (e f : ℕ) :
    ((d.split_face e f).1).vertices = d.vertices := by
  unfold DCEL.split_face
  dsimp only
  split
  · rfl
  · split
    · rfl
    · split
      · split <;> rfl
      · rename_i d3 hup
        show d3.vertices = d.vertices
        rw [vertices_update_face_in_cycle _ _ _ _ hup]
        split <;> rfl

end GeoNotebooks

namespace GeoNotebooks

theorem vertices_moveComponents (oldf newf : ℕ) : ∀ (l : List ℕ) (d : DCEL),
    ((moveComponents oldf newf d l).1).vertices = d.vertices := by
  intro l
  induction l with
  | nil => intro d; rfl
  | cons c rest ih =>
    intro d
    unfold moveComponents
    dsimp only
    split
    · rfl
    · rename_i d3 hup
      rw [ih d3, vertices_update_face_in_cycle _ _ _ _ hup]
      rfl

theorem vertices_fix_inner (d : DCEL) (e0 e1 oldf : ℕ) (nf : Option ℕ) :
    ((d.fix_inner_components e0 e1 oldf nf).1).vertices = d.vertices := by
  unfold DCEL.fix_inner_components
  dsimp only
  split
  · rfl
  · split
    · rfl
    · rename_i d2 heq
      have h2 : d2.vertices = d.vertices := by
        split at heq
        · simp only [pure, Except.pure, Except.ok.injEq] at heq
          rw [← heq]
          rfl
        · simp only [Bind.bind, Except.bind] at heq
          split at heq
          · -- outer component present: split on the cycle result, then the if
            split at heq
            · cases heq
            · split at heq <;>
              · simp only [pure, Except.pure, Except.ok.injEq] at heq
                rw [← heq]
                rfl
          · -- outer component None: the throw propagates as an error
            cases heq
      split
      · exact h2
      · split
        · exact h2
        · rename_i toMove hmv
          rw [vertices_moveComponents _ _ _ d2]
          exact h2

end GeoNotebooks

namespace GeoNotebooks

theorem vertices_resolve_faces (d : DCEL) (v0 v1 he0 : ℕ) :
    ((d.resolve_faces v0 v1 he0).1).vertices = d.vertices := by
  unfold DCEL.resolve_faces
  dsimp only
  split
  · rfl
  · split
    · split <;> rfl
    · rfl

theorem vertices_add_edge (d : DCEL) (v0 v1 : ℕ) :
    ((d.add_edge v0 v1).1).vertices = d.vertices := by
  unfold DCEL.add_edge
  dsimp only
  split
  · -- resolve_faces returned an error
    rename_i dC msg heq
    have h1 := congrArg Prod.fst heq
    dsimp only at h1
    rw [← h1, vertices_resolve_faces]
    repeat' split
    all_goals rfl
  · rename_i dC f0 f1 new_face heq
    have h1 := congrArg Prod.fst heq
    dsimp only at h1
    have hdC : dC.vertices = d.vertices := by
      rw [← h1, vertices_resolve_faces]
      repeat' split
      all_goals rfl
    split
    · -- face mismatch error
      exact hdC
    · split
      · -- first angular search errors
        simp only [vertices_modE]
        exact hdC
      · split
        · -- second angular search errors
          simp only [vertices_modE]
          exact hdC
        · -- the AttributeError at line 154
          simp only [vertices_modE]
          exact hdC

theorem vertices_add_edge_by_points (d : DCEL) (p q : Point) :
    ((d.add_edge_by_points p q).1).vertices = d.vertices := by
  unfold DCEL.add_edge_by_points
  dsimp only
  split
  · rfl
  · split
    · rw [vertices_add_edge]
    · rfl

end GeoNotebooks

namespace GeoNotebooks

theorem findVertexByPid_pid : ∀ (l : List Vertex) (pid k i : ℕ),
    findVertexByPid l pid k = some i →
    k ≤ i ∧ i - k < l.length ∧ (l.getD (i - k) dfltVertex).pid = pid := by
  intro l
  induction l with
  | nil => intro pid k i h; cases h
  | cons v rest ih =>
    intro pid k i h
    unfold findVertexByPid at h
    split at h
    · rename_i hv
      simp only [Option.some.injEq] at h
      subst h
      simp [hv]
    · have := ih pid (k + 1) i h
      obtain ⟨hk, hlen, hpid⟩ := this
      refine ⟨by omega, by simp; omega, ?_⟩
      have hik : i - k = (i - (k + 1)) + 1 := by omega
      rw [hik]
      simpa using hpid

theorem add_vertex_in_edge_no_split (d : DCEL) (e : ℕ) (p : Point) (pid : ℕ) :
    (d.add_vertex_in_edge e p pid).2 = .ok none ∨
    ∃ msg, (d.add_vertex_in_edge e p pid).2 = .error msg := by
  unfold DCEL.add_vertex_in_edge
  dsimp only
  split
  · exact .inr ⟨_, rfl⟩
  · split
    · exact .inr ⟨_, rfl⟩
    · exact .inr ⟨_, rfl⟩
    · split
      · exact .inl rfl
      · exact .inr ⟨_, rfl⟩

theorem add_edge_never_completes (d : DCEL) (v0 v1 : ℕ) :
    ∃ msg, (d.add_edge v0 v1).2 = some msg := by
  unfold DCEL.add_edge
  dsimp only
  split
  · exact ⟨_, rfl⟩
  · split
    · exact ⟨_, rfl⟩
    · split
      · exact ⟨_, rfl⟩
      · split
        · exact ⟨_, rfl⟩
        · exact ⟨_, rfl⟩

theorem add_vertex_existing_pid (d : DCEL) (p : Point) (pid vi : ℕ)
    (hres : (d.add_vertex p pid).2 = .ok (some vi)) (hlt : vi < d.vertices.length) :
    (d.vAt vi).pid = pid := by
  unfold DCEL.add_vertex at hres
  dsimp only at hres
  split at hres
  · rename_i i hfind
    simp only [Except.ok.injEq, Option.some.injEq] at hres
    subst hres
    have hspec := findVertexByPid_pid d.vertices pid 0 _ hfind
    obtain ⟨-, -, hpid⟩ := hspec
    simpa [DCEL.vAt] using hpid
  · split at hres
    · cases hres
    · rename_i e honedge
      rcases add_vertex_in_edge_no_split d e p pid with h | ⟨msg, h⟩ <;>
        rw [hres] at h <;> simp at h
    · split at hres
      · cases hres
      · simp only [Except.ok.injEq, Option.some.injEq] at hres
        omega

end GeoNotebooks

namespace GeoNotebooks

theorem mkLineSeg_error_iff (p q : Point) :
    (∃ msg, mkLineSeg p q = .error msg) ↔ p = q := by
  unfold mkLineSeg
  split
  · rename_i hpq
    simp [hpq]
  · rename_i hpq
    split <;> simp [hpq]

theorem mkLineSeg_ok_ne (p q : Point) (s : LineSeg) (h : mkLineSeg p q = .ok s) :
    s.upper ≠ s.lower := by
  unfold mkLineSeg at h
  split at h
  · cases h
  · rename_i hne
    split at h
    · simp only [Except.ok.injEq] at h
      subst h
      exact fun hc => hne hc
    · simp only [Except.ok.injEq] at h
      subst h
      exact fun hc => hne hc.symm

theorem mkVDSeg_ok_ne (p q : Point) (v : VDSeg) (h : mkVDSeg p q = .ok v) :
    v.ls.upper ≠ v.ls.lower := by
  unfold mkVDSeg at h
  simp only [Bind.bind, Except.bind] at h
  split at h
  · cases h
  · rename_i s hs
    simp only [pure, Except.pure, Except.ok.injEq] at h
    subst h
    exact mkLineSeg_ok_ne p q s hs

theorem mkVDSeg_error_iff (p q : Point) :
    (∃ msg, mkVDSeg p q = .error msg) ↔ p = q := by
  rw [← mkLineSeg_error_iff p q]
  unfold mkVDSeg
  simp only [Bind.bind, Except.bind]
  constructor
  · intro ⟨msg, hmsg⟩
    split at hmsg
    · rename_i m hm
      exact ⟨m, hm⟩
    · simp [pure, Except.pure] at hmsg
  · intro ⟨msg, hmsg⟩
    exact ⟨msg, by rw [hmsg]⟩

/-- A point lies on a segment: on its supporting line and inside its
x-range (auxiliary predicate used only to state the scenarios). -/
def onSegment (p : Point) (s : LineSeg) : Bool :=
  decide (p.vertical_orientation s = .ON) && s.left.x.ble p.x && p.x.ble s.right.x

end GeoNotebooks

namespace GeoNotebooks

/-! ## Claim theorems -/

/-- C1: no decomposition is ever "built from a DCEL by PointLocation" — the
constructor raises TypeError on every input, because
`build_vertical_decomposition` begins with `clear_vertical_decomposition`,
whose `DoublyConnectedEdgeList()` call passes none of the two required
arguments (vertical_decomposition.py line 86).  First conjunct: the
constructor returns an error for every bounding box, DCEL and insertion
order; second: concretely, for the empty DCEL over the box (0,0)-(40,40) it
is the TypeError. -/
theorem C1_theorem :
    (∀ (l r lo up : Frac) (d : DCEL) (order : List ℕ),
      ∃ msg, mkPointLocation l r lo up d order = .error msg) ∧
    mkPointLocation (Frac.ofInt 0) (Frac.ofInt 40) (Frac.ofInt 0) (Frac.ofInt 40)
      emptyDCEL []
      = .error "TypeError: DoublyConnectedEdgeList takes 2 required positional arguments: points and edges" := by
  refine ⟨fun l r lo up d order => ?_, rfl⟩
  unfold mkPointLocation
  cases initVD l r lo up with
  | error msg => exact ⟨msg, rfl⟩
  | ok base =>
    cases dcel_preprocessing d with
    | error msg => exact ⟨msg, rfl⟩
    | ok derived => exact ⟨_, rfl⟩

/-- C2: no non-self-intersecting `add_vertex` / `add_edge_by_points`
sequence with at least one edge ever completes, so the checker never gets
to run on a successfully built subdivision: `_add_edge` raises
AttributeError at dcel.py line 154 (`half_edge_0.twin = half_edge_1`
assigns the getter-only property `HalfEdge.twin`) on every invocation that
passes validation.  First conjunct: `_add_edge` returns an error for every
state and vertex pair.  The rest traces the plain sequence
`add_vertex((0,0))`, `add_vertex((10,0))`,
`add_edge_by_points((0,0),(10,0))`: both vertex insertions succeed, the
edge insertion raises the AttributeError, and the state is left damaged —
the outer face has gained a dangling inner-component reference to the
reused half-edge 0 (appended by the both-isolated branch before the raise)
while the two half-edges are still self-looped. -/
theorem C2_theorem :
    (∀ (d : DCEL) (v0 v1 : ℕ), ∃ msg, (d.add_edge v0 v1).2 = some msg) ∧
    pair0.2 = .ok (some 0) ∧
    pair1.2 = .ok (some 1) ∧
    pair2.2 = some "AttributeError: property twin of HalfEdge object has no setter" ∧
    pairDCEL.faces = [{ outer := none, isOuter := true, inner := [0] }] ∧
    (pairDCEL.eAt 0).twin = 0 ∧
    pairDCEL.edges.length = 2 :=
  ⟨add_edge_never_completes, rfl, rfl, rfl, rfl, rfl, rfl⟩

/-- C4 as stated is false: in the decomposition holding the single segment
(5,5)-(15,10), the point (9,7) lies exactly on that segment, yet the pure
external query (`line_segment = None`) does not fail — it resolves the
point silently to trapezoid 1, the trapezoid directly above the segment
(its bottom boundary is the segment, its top the bounding box top). -/
theorem C4_counterexample :
    oneSeg1.2 = none ∧
    (pt 9 7).vertical_orientation ((oneSeg.sAt 2).ls) = .ON ∧
    onSegment (pt 9 7) ((oneSeg.sAt 2).ls) = true ∧
    searchNode oneSeg (oneSeg.nodes.length + 1) oneSeg.root (pt 9 7) none = .ok 1 ∧
    (oneSeg.tAt 1).bottom = 2 ∧
    (oneSeg.tAt 1).top = 0 :=
  ⟨rfl, rfl, rfl, rfl, rfl, rfl⟩

/-- C4 amended: a pure external query for a point on the supporting line of
the segment stored at a y-node is not rejected; because
`line_segment is None` satisfies the upward tie-break, the search always
continues into the upper child (resolving the point to the region above the
segment). -/
theorem C4_theorem (s : VDState) (fuel ni segIdx c : ℕ) (p : Point)
    (hdata : (s.nAt ni).data = .ynode segIdx)
    (hon : p.vertical_orientation (s.sAt segIdx).ls = .ON)
    (hup : (s.nAt ni).right = some c) :
    searchNode s (fuel + 1) ni p none = searchNode s fuel c p none := by
  conv_lhs => rw [searchNode]
  simp [hdata, hon, hup]

/-- C4 witness: in the one-segment decomposition, node 5 is the y-node
holding segment 2 with upper child 2, and (9,7) lies on the segment. -/
theorem C4_witness :
    searchNode oneSeg 11 5 (pt 9 7) none = searchNode oneSeg 10 2 (pt 9 7) none :=
  C4_theorem oneSeg 10 5 2 2 (pt 9 7) rfl rfl rfl

/-- C5 as stated is false: `add_edge_by_points((10,5),(30,30))` on the
diamond with an isolated vertex at (30,30) raises the different-faces
topology error, but the edge list has grown (the fresh half-edge created
before validation stays appended). -/
theorem C5_counterexample :
    c5res.2 = some "vertices do not lie in the same face" ∧
    c5res.1.edges.length = c5base.edges.length + 1 ∧
    c5res.1.edges ≠ c5base.edges :=
  ⟨rfl, rfl, by decide⟩

/-- C5 amended: a failing `_add_edge` leaves the vertex list unchanged
(proved for every DCEL state and every call, failing or not), and in the
different-faces failure above the face list is also unchanged, but the
freshly created half-edge remains appended to the edge list. -/
theorem C5_theorem :
    (∀ (d : DCEL) (p q : Point), ((d.add_edge_by_points p q).1).vertices = d.vertices) ∧
    (∀ (d : DCEL) (v0 v1 : ℕ), ((d.add_edge v0 v1).1).vertices = d.vertices) ∧
    c5res.1.vertices = c5base.vertices ∧
    c5res.1.faces = c5base.faces ∧
    c5res.1.edges = c5base.edges ++
      [({ origin := 0, twin := 9, prev := 9, next := 9, face := none } : HalfEdge)] :=
  ⟨vertices_add_edge_by_points, vertices_add_edge, rfl, rfl, rfl⟩

/-- C6 as stated is false: after inserting (2,6)-(15,4), (12,2)-(18,2) and
then (8,8)-(20,8) into the (0,0)-(40,40) box, the query point (10,7)
resolves to trapezoid 12, whose top boundary is segment 4 = (8,8)-(20,8)
as claimed, but whose bottom boundary is segment 2 = (2,6)-(15,4), not the
bounding-box bottom edge (segment 1 = (0,0)-(40,0)). -/
theorem C6_counterexample :
    scenA1.2 = none ∧ scenA2.2 = none ∧ scenA3.2 = none ∧
    searchNode scenA (scenA.nodes.length + 1) scenA.root (pt 10 7) none = .ok 12 ∧
    (scenA.tAt 12).top = 4 ∧
    (scenA.sAt 4).ls = { upper := pt 8 8, lower := pt 20 8 } ∧
    (scenA.tAt 12).bottom = 2 ∧
    (scenA.sAt 2).ls = { upper := pt 2 6, lower := pt 15 4 } ∧
    (scenA.sAt 1).ls = { upper := pt 0 0, lower := pt 40 0 } ∧
    (scenA.sAt 2).ls ≠ (scenA.sAt 1).ls :=
  ⟨rfl, rfl, rfl, rfl, rfl, rfl, rfl, rfl, rfl, by decide⟩

/-- C6 amended: in scenario A the query point (10,7) resolves to the
trapezoid bounded above by the segment (8,8)-(20,8) and below by the
segment (2,6)-(15,4), with boundary points (8,8) and (15,4). -/
theorem C6_theorem :
    searchNode scenA (scenA.nodes.length + 1) scenA.root (pt 10 7) none = .ok 12 ∧
    (scenA.sAt (scenA.tAt 12).top).ls = { upper := pt 8 8, lower := pt 20 8 } ∧
    (scenA.sAt (scenA.tAt 12).bottom).ls = { upper := pt 2 6, lower := pt 15 4 } ∧
    (scenA.tAt 12).leftP = pt 8 8 ∧
    (scenA.tAt 12).rightP = pt 15 4 ∧
    scenA.trapList.contains 12 = true :=
  ⟨rfl, rfl, rfl, rfl, rfl, rfl⟩

/-- C7: the endpoint cases are accepted as claimed (a no-op returning no
vertex, reached before any broken statement), but the claimed split path
never completes and the claimed non-collinear rejection never fires for its
intended reason.  First conjunct: for every state, edge and point, the call
returns either the endpoint no-op or an error — never a new vertex — since
the split path raises AttributeError at dcel.py line 216
(`new_vertex.edge.twin = edge.twin`, `twin` getter-only).  On the edge
(0,0)-(2,0): the interior point (1,0), orientation BETWEEN (the claimed
valid split input), errors there with the new vertex and its two fresh
half-edges left appended; and the strictly-LEFT point (1,5), which the
claim demands be rejected as not collinear-between, reaches the same
AttributeError, because the guard
`if not edge.origin.point != edge.destination.point and point.orientation(...) == ORT.BETWEEN:`
(line 200) parses as `(origin == destination) and (... == BETWEEN)` and is
dead for every nondegenerate edge. -/
theorem C7_theorem :
    (∀ (d : DCEL) (e : ℕ) (p : Point) (pid : ℕ),
      (d.add_vertex_in_edge e p pid).2 = .ok none ∨
      ∃ msg, (d.add_vertex_in_edge e p pid).2 = .error msg) ∧
    segDCEL.originPt 0 = pt 0 0 ∧
    segDCEL.destPt 0 = pt 2 0 ∧
    segDCEL.add_vertex_in_edge 0 (pt 0 0) 7 = (segDCEL, .ok none) ∧
    segDCEL.add_vertex_in_edge 0 (pt 2 0) 7 = (segDCEL, .ok none) ∧
    (pt 1 0).orientation (pt 0 0) (pt 2 0) = .ok .BETWEEN ∧
    (segDCEL.add_vertex_in_edge 0 (pt 1 0) 7).2
      = .error "AttributeError: property twin of HalfEdge object has no setter" ∧
    (segDCEL.add_vertex_in_edge 0 (pt 1 0) 7).1.vertices.length = 3 ∧
    (segDCEL.add_vertex_in_edge 0 (pt 1 0) 7).1.edges.length = 4 ∧
    (pt 1 5).orientation (pt 0 0) (pt 2 0) = .ok .LEFT ∧
    (segDCEL.add_vertex_in_edge 0 (pt 1 5) 7).2
      = .error "AttributeError: property twin of HalfEdge object has no setter" :=
  ⟨add_vertex_in_edge_no_split, rfl, rfl, rfl, rfl, rfl, rfl, rfl, rfl, rfl, rfl⟩

/-- C9: `add_vertex` returns an already-existing vertex only when the point
is the very same object (same identity token) as that vertex's point —
proved for every DCEL state; a distinct point object with coordinates
equal to a vertex that has incident edges takes the edge-splitting path
and returns `None` (the point coincides with an endpoint of the found
edge); and when the coordinate-equal vertex is isolated, a second vertex
with equal coordinates is created. -/
theorem C9_theorem :
    (∀ (d : DCEL) (p : Point) (pid vi : ℕ),
      (d.add_vertex p pid).2 = .ok (some vi) → vi < d.vertices.length →
      (d.vAt vi).pid = pid) ∧
    ((segDCEL.vAt 0).point = pt 0 0 ∧
     segDCEL.outgoing_edges 0 = .ok [0] ∧
     segDCEL.add_vertex (pt 0 0) 99 = (segDCEL, .ok none)) ∧
    ((isoDCEL.vAt 0).point = pt 3 3 ∧
     isoDCEL.outgoing_edges 0 = .ok [] ∧
     (isoDCEL.add_vertex (pt 3 3) 2).2 = .ok (some 1) ∧
     (isoDCEL.add_vertex (pt 3 3) 2).1.vertices.length = 2 ∧
     ((isoDCEL.add_vertex (pt 3 3) 2).1.vAt 1).point = pt 3 3) :=
  ⟨add_vertex_existing_pid, ⟨rfl, rfl, rfl⟩, ⟨rfl, rfl, rfl, rfl, rfl⟩⟩

/-- C9 witness: calling `add_vertex` on the isolated-vertex DCEL with the
same identity token 1 returns the existing vertex 0, whose token is 1. -/
theorem C9_witness : (isoDCEL.vAt 0).pid = 1 :=
  C9_theorem.1 isoDCEL (pt 3 3) 1 0 rfl (by decide)

/-- C10: `LineSegment.__init__` (and hence `VDLineSegment.__init__`, which
delegates to it) raises ValueError exactly when the two points are equal,
and every constructed segment has two distinct endpoints. -/
theorem C10_theorem :
    (∀ p q : Point, (∃ msg, mkLineSeg p q = .error msg) ↔ p = q) ∧
    (∀ (p q : Point) (s : LineSeg), mkLineSeg p q = .ok s → s.upper ≠ s.lower) ∧
    (∀ p q : Point, (∃ msg, mkVDSeg p q = .error msg) ↔ p = q) ∧
    (∀ (p q : Point) (v : VDSeg), mkVDSeg p q = .ok v → v.ls.upper ≠ v.ls.lower) :=
  ⟨mkLineSeg_error_iff, mkLineSeg_ok_ne, mkVDSeg_error_iff, mkVDSeg_ok_ne⟩

/-- C10 witness: the constructor rejects the duplicated point (1,2) and
accepts (1,2)-(3,4) with distinct stored endpoints. -/
theorem C10_witness :
    (∃ msg, mkLineSeg (pt 1 2) (pt 1 2) = .error msg) ∧
    ({ upper := pt 3 4, lower := pt 1 2 } : LineSeg).upper ≠
      ({ upper := pt 3 4, lower := pt 1 2 } : LineSeg).lower :=
  ⟨(C10_theorem.1 (pt 1 2) (pt 1 2)).mpr rfl,
   C10_theorem.2.1 (pt 1 2) (pt 3 4) { upper := pt 3 4, lower := pt 1 2 } rfl⟩

end GeoNotebooks
